import Mathlib

/-!
Shallow embedding of the Intel 8080 CPU core of `inv8080rs` (src/src/cpu.rs,
with the bit helpers of src/src/utils/mod.rs), together with theorems that
settle the claims about its specification.

Conventions of the embedding:
* Machine bytes (`u8`) and words (`u16`) are represented as `Nat`; wherever the
  Rust code truncates (wrapping arithmetic, `as u8` / `as u16` casts) the
  embedding applies an explicit `% 0x100` / `% 0x10000`.
* `registers`, `memory`, `bus_in` and `bus_out` arrays become total functions
  `Nat → Nat`; on the Rust side the well-typedness of `u8` guarantees cell
  values below 256, which here becomes an explicit hypothesis where a theorem
  needs it.
* `panic!` (invalid register-pair operands, unimplemented instructions) is
  modelled by `Option`: `execute` returns `none` exactly where the Rust code
  aborts.  The `debug_assert!` range checks on `set_pc` / `set_sp` /
  `get_memory` / `set_memory` are compiled out of release builds (spec §7
  documents this) and are not modelled.
-/

namespace Inv8080

/-- From utils::get_bit: `(val & (1 << n)) != 0`. -/
def get_bit (val n : Nat) : Bool :=
  val &&& (1 <<< n) != 0

/-- From utils::set_bit: `*value |= 1 << n` or `*value &= !(1 << n)` (on `u8`,
`!(1 << n)` is `0xFF ^ (1 << n)`). -/
def set_bit (value n : Nat) (val : Bool) : Nat :=
  if val then value ||| (1 <<< n) else value &&& (0xFF ^^^ (1 <<< n))

/-- Registers, in the layout of cpu.rs (`B=0 .. F=6, A=7`). -/
inductive Register
  | B | C | D | E | H | L | F | A
deriving DecidableEq

/-- The array index of a register (its discriminant in cpu.rs). -/
def Register.idx : Register → Nat
  | .B => 0
  | .C => 1
  | .D => 2
  | .E => 3
  | .H => 4
  | .L => 5
  | .F => 6
  | .A => 7

/-- Register pairs (discriminants 0b00..0b11 in cpu.rs). -/
inductive RegisterPair
  | BC | DE | HL | SP
deriving DecidableEq

/-- The discriminant of a register pair; pairs live at registers `idx*2` and
`idx*2+1`. -/
def RegisterPair.idx : RegisterPair → Nat
  | .BC => 0
  | .DE => 1
  | .HL => 2
  | .SP => 3

/-- The eight branch conditions. -/
inductive Condition
  | NotZero | Zero | NoCarry | Carry | ParityOdd | ParityEven | Plus | Minus
deriving DecidableEq

/-- The five flags. -/
inductive Flag
  | Z | S | P | CY | AC
deriving DecidableEq

/-- The bit of the F register holding a flag (cpu.rs get_flag/set_flag:
CY=bit0, P=bit2, AC=bit4, Z=bit6, S=bit7). -/
def Flag.pos : Flag → Nat
  | .CY => 0
  | .P => 2
  | .AC => 4
  | .Z => 6
  | .S => 7

/-- The instruction enumeration of cpu.rs (operands: `Nat` stands for the
Rust `Data`/`Data16`/`Address` payloads). -/
inductive Instruction
  | MoveRegister (dst src : Register)
  | MoveFromMemory (r : Register)
  | MoveToMemory (r : Register)
  | MoveImmediate (r : Register) (data : Nat)
  | MoveToMemoryImmediate (data : Nat)
  | LoadRegisterPairImmediate (rp : RegisterPair) (data : Nat)
  | LoadAccumulatorDirect (addr : Nat)
  | StoreAccumulatorDirect (addr : Nat)
  | LoadHLDirect (addr : Nat)
  | StoreHLDirect (addr : Nat)
  | LoadAccumulatorIndirect (rp : RegisterPair)
  | StoreAccumulatorIndirect (rp : RegisterPair)
  | ExchangeHLWithDE
  | AddRegister (r : Register)
  | AddMemory
  | AddImmediate (data : Nat)
  | AddRegisterWithCarry (r : Register)
  | AddMemoryWithCarry
  | AddImmediateWithCarry (data : Nat)
  | SubtractRegister (r : Register)
  | SubtractMemory
  | SubtractImmediate (data : Nat)
  | SubtractRegisterWithBorrow (r : Register)
  | SubtractMemoryWithBorrow
  | SubtractImmediateWithBorrow (data : Nat)
  | IncrementRegister (r : Register)
  | IncrementMemory
  | DecrementRegister (r : Register)
  | DecrementMemory
  | IncrementRegisterPair (rp : RegisterPair)
  | DecrementRegisterPair (rp : RegisterPair)
  | AddRegisterPairToHL (rp : RegisterPair)
  | DecimalAdjustAccumulator
  | AndRegister (r : Register)
  | AndMemory
  | AndImmediate (data : Nat)
  | XorRegister (r : Register)
  | XorMemory
  | XorImmediate (data : Nat)
  | OrRegister (r : Register)
  | OrMemory
  | OrImmediate (data : Nat)
  | CompareRegister (r : Register)
  | CompareMemory
  | CompareImmediate (data : Nat)
  | RotateLeft
  | RotateRight
  | RotateLeftThroughCarry
  | RotateRightThroughCarry
  | ComplementAccumulator
  | ComplementCarry
  | SetCarry
  | Jump (addr : Nat)
  | ConditionalJump (c : Condition) (addr : Nat)
  | Call (addr : Nat)
  | ConditionalCall (c : Condition) (addr : Nat)
  | Return
  | ConditionalReturn (c : Condition)
  | Restart (data : Nat)
  | JumpHLIndirect
  | Push (rp : RegisterPair)
  | PushProcessorStatusWord
  | Pop (rp : RegisterPair)
  | PopProcessorStatusWord
  | ExchangeSPWithHL
  | MoveHLToSP
  | Input (port : Nat)
  | Output (port : Nat)
  | EnableInterrupts
  | DisableInterrupts
  | Halt
  | NoOperation
  | Err (data : Nat)

/-- The machine state of cpu.rs (struct Cpu).  Arrays are total functions;
`MEMORY_SIZE = 0x4000` and `NPORTS = 8` bound the indices actually used. -/
structure Cpu where
  memory : Nat → Nat
  pc : Nat
  registers : Nat → Nat
  sp : Nat
  bus_in : Nat → Nat
  bus_out : Nat → Nat
  shift : Nat
  offset : Nat
  interruptable : Bool
  display_update : Bool

/-- Cpu::new — program bytes are copied to the low addresses, the rest of
memory is zero; note the non-zero defaults of `bus_in[0]` and `bus_in[1]`. -/
def Cpu.new (program : List Nat) : Cpu where
  memory := fun i => program.getD i 0
  pc := 0
  registers := fun _ => 0
  sp := 0
  bus_in := fun p => if p = 0 then 0b00001110 else if p = 1 then 0b00001000 else 0
  bus_out := fun _ => 0
  shift := 0
  offset := 0
  interruptable := false
  display_update := true

/-- Cpu::get_register. -/
def get_register (s : Cpu) (r : Register) : Nat :=
  s.registers r.idx

/-- Cpu::set_register. -/
def set_register (s : Cpu) (r : Register) (data : Nat) : Cpu :=
  { s with registers := fun i => if i = r.idx then data else s.registers i }

/-- Cpu::get_flags. -/
def get_flags (s : Cpu) : Nat :=
  get_register s .F

/-- Cpu::set_flags. -/
def set_flags (s : Cpu) (flags : Nat) : Cpu :=
  set_register s .F flags

/-- Cpu::get_flag (the per-flag `get_bit` calls, via `Flag.pos`). -/
def get_flag (s : Cpu) (f : Flag) : Bool :=
  get_bit (get_flags s) f.pos

/-- Cpu::set_flag (the per-flag `set_bit` calls, via `Flag.pos`). -/
def set_flag (s : Cpu) (f : Flag) (val : Bool) : Cpu :=
  set_flags s (set_bit (get_flags s) f.pos val)

/-- Cpu::get_memory (release build: the debug range assertion is elided). -/
def get_memory (s : Cpu) (addr : Nat) : Nat :=
  s.memory addr

/-- Cpu::set_memory; writes in the framebuffer range 0x2400..0x4000 set
`display_update` (the FRAMEBUFFER constant of the crate root, as used by
Cpu::display). -/
def set_memory (s : Cpu) (addr data : Nat) : Cpu :=
  { s with
    memory := fun i => if i = addr then data else s.memory i
    display_update :=
      if 0x2400 ≤ addr ∧ addr < 0x4000 then true else s.display_update }

/-- Cpu::set_register_pair: BC/DE/HL write two big-endian cells, SP sets the
stack pointer. -/
def set_register_pair (s : Cpu) (rp : RegisterPair) (data : Nat) : Cpu :=
  match rp with
  | .SP => { s with sp := data }
  | _ =>
    { s with
      registers := fun i =>
        if i = rp.idx * 2 then (data &&& 0xFF00) >>> 8
        else if i = rp.idx * 2 + 1 then data &&& 0x00FF
        else s.registers i }

/-- Cpu::get_register_pair: BC/DE/HL combine two cells big-endian; SP is
returned through a `usize → u16` cast, hence the `% 0x10000`. -/
def get_register_pair (s : Cpu) (rp : RegisterPair) : Nat :=
  match rp with
  | .SP => s.sp % 0x10000
  | _ => (s.registers (rp.idx * 2)) <<< 8 ||| s.registers (rp.idx * 2 + 1)

/-- Cpu::is_condition. -/
def is_condition (s : Cpu) (c : Condition) : Bool :=
  match c with
  | .NotZero => !(get_flag s .Z)
  | .Zero => get_flag s .Z
  | .NoCarry => !(get_flag s .CY)
  | .Carry => get_flag s .CY
  | .ParityOdd => !(get_flag s .P)
  | .ParityEven => get_flag s .P
  | .Plus => !(get_flag s .S)
  | .Minus => get_flag s .S

/-- Cpu::set_pc (release build: the ROM-range debug assertion is elided). -/
def set_pc (s : Cpu) (pc : Nat) : Cpu :=
  { s with pc := pc }

/-- Cpu::push_data: decrement SP, store the byte there. -/
def push_data (s : Cpu) (data : Nat) : Cpu :=
  let s1 : Cpu := { s with sp := s.sp - 1 }
  set_memory s1 s1.sp data

/-- Cpu::push: high byte first, then low byte. -/
def push (s : Cpu) (data : Nat) : Cpu :=
  push_data (push_data s ((data &&& 0xFF00) >>> 8)) (data &&& 0x00FF)

/-- Cpu::peek: little-endian 16-bit read at SP. -/
def peek (s : Cpu) : Nat :=
  get_memory s s.sp ||| (get_memory s (s.sp + 1)) <<< 8

/-- Cpu::peek_data. -/
def peek_data (s : Cpu) : Nat :=
  get_memory s s.sp

/-- Cpu::pop: returns the new state and the popped 16-bit value. -/
def pop (s : Cpu) : Cpu × Nat :=
  ({ s with sp := s.sp + 2 }, peek s)

/-- Cpu::pop_data: returns the new state and the popped byte. -/
def pop_data (s : Cpu) : Cpu × Nat :=
  ({ s with sp := s.sp + 1 }, peek_data s)

/-- Cpu::get_bus_in: port 3 returns `((shift << offset) >> 8) as u8`
(the shift is a `u16` shift, hence the `% 0x10000`). -/
def get_bus_in (s : Cpu) (port : Nat) : Nat :=
  if port = 3 then (((s.shift <<< s.offset) % 0x10000) >>> 8) % 0x100
  else s.bus_in port

/-- Cpu::set_bus_out: port 2 sets the 3-bit shift offset, port 4 loads the
shift register's high byte, shifting the old high byte down; the port latch
is always written. -/
def set_bus_out (s : Cpu) (port data : Nat) : Cpu :=
  let s1 : Cpu :=
    if port = 2 then { s with offset := data &&& 0x7 }
    else if port = 4 then { s with shift := ((data % 0x100) <<< 8) ||| (s.shift >>> 8) }
    else s
  { s1 with bus_out := fun p => if p = port then data else s1.bus_out p }

/-- `u8::count_ones` of a byte: the number of set bits among bits 0..7. -/
def count_ones (v : Nat) : Nat :=
  ((List.range 8).filter (fun i => v.testBit i)).length

/-- The auxiliary-carry expression of Cpu::set_flags_for_arithmetic, written
exactly as in the source:
`(before & (0b0000_1000 >> 3)) == 1 && (after & (0b0001_0000 >> 4)) == 1`.
Note the parenthesisation: both shifted masks evaluate to 1, so this tests
bit 0 of `before` and bit 0 of `after`. -/
def arith_ac (before after : Nat) : Bool :=
  (before &&& (0b00001000 >>> 3) == 1) && (after &&& (0b00010000 >>> 4) == 1)

/-- Cpu::set_flags_for_arithmetic. -/
def set_flags_for_arithmetic (s : Cpu) (before after : Nat) (carry : Bool) : Cpu :=
  let s1 := set_flag s .Z (after == 0)
  let s2 := set_flag s1 .S (after &&& 0x80 == 0x80)
  let s3 := set_flag s2 .P (count_ones after % 2 == 0)
  let s4 := set_flag s3 .CY carry
  set_flag s4 .AC (arith_ac before after)

/-- Cpu::add: AC from nibble overflow, then `overflowing_add`, then
Z/S/P from the result. -/
def add (s : Cpu) (addend : Nat) : Cpu :=
  let acc := get_register s .A
  let s1 := set_flag s .AC (decide (0xF < (acc &&& 0xF) + (addend &&& 0xF)))
  let result := (acc + addend) % 0x100
  let carry := decide (0xFF < acc + addend)
  let s2 := set_register s1 .A result
  let s3 := set_flag s2 .CY carry
  let s4 := set_flag s3 .Z (result == 0)
  let s5 := set_flag s4 .S (result &&& 0x80 == 0x80)
  set_flag s5 .P (count_ones result % 2 == 0)

/-- `u8::overflowing_sub` for byte values: wrapped difference and borrow. -/
def overflowing_sub8 (a b : Nat) : Nat × Bool :=
  ((a + 0x100 - b) % 0x100, decide (a < b))

/-- `u16::overflowing_add` for word values: wrapped sum and carry-out. -/
def overflowing_add16 (a b : Nat) : Nat × Bool :=
  ((a + b) % 0x10000, decide (0xFFFF < a + b))

/-- Cpu::execute.  Returns `none` where the Rust code panics: `Push`/`Pop` of
`SP`, indirect accumulator access through `HL`/`SP`, and every instruction that
falls into the `_ => panic!("Unimplemented ...")` catch-all (AddMemoryWithCarry,
AddImmediateWithCarry, SubtractMemory, SubtractRegisterWithBorrow,
SubtractMemoryWithBorrow, XorMemory, XorImmediate, RotateLeftThroughCarry,
ComplementCarry, MoveHLToSP, Halt, Err). -/
def execute (s : Cpu) (instr : Instruction) : Option (Cpu × Nat) :=
  match instr with
  | .NoOperation => some (s, 4)
  | .Jump addr => some (set_pc s addr, 10)
  | .JumpHLIndirect => some (set_pc s (get_register_pair s .HL), 5)
  | .LoadRegisterPairImmediate rp data => some (set_register_pair s rp data, 10)
  | .MoveImmediate r data => some (set_register s r data, 7)
  | .Call addr => some (set_pc (push s s.pc) addr, 17)
  | .Return =>
    let (s1, addr) := pop s
    some (set_pc s1 addr, 10)
  | .LoadAccumulatorIndirect rp =>
    match rp with
    | .BC | .DE =>
      some (set_register s .A (get_memory s (get_register_pair s rp)), 7)
    | _ => none
  | .StoreAccumulatorIndirect rp =>
    match rp with
    | .BC | .DE =>
      some (set_memory s (get_register_pair s rp) (get_register s .A), 7)
    | _ => none
  | .MoveToMemory r =>
    some (set_memory s (get_register_pair s .HL) (get_register s r), 7)
  | .IncrementRegisterPair rp =>
    let (val, _) := overflowing_add16 (get_register_pair s rp) 1
    some (set_register_pair s rp val, 5)
  | .DecrementRegisterPair rp =>
    -- u16 overflowing_sub of 1: wraps modulo 2^16
    let val := (get_register_pair s rp + 0xFFFF) % 0x10000
    some (set_register_pair s rp val, 5)
  | .DecrementRegister r =>
    let before := get_register s r
    let (after, _) := overflowing_sub8 before 1
    let s1 := set_register s r after
    some (set_flags_for_arithmetic s1 before after (get_flag s1 .CY), 5)
  | .IncrementRegister r =>
    let before := get_register s r
    let after := (before + 1) % 0x100
    let s1 := set_register s r after
    some (set_flags_for_arithmetic s1 before after (get_flag s1 .CY), 5)
  | .DecrementMemory =>
    let addr := get_register_pair s .HL
    let before := get_memory s addr
    let (after, _) := overflowing_sub8 before 1
    let s1 := set_memory s addr after
    some (set_flags_for_arithmetic s1 before after (get_flag s1 .CY), 10)
  | .IncrementMemory =>
    let addr := get_register_pair s .HL
    let before := get_memory s addr
    let after := (before + 1) % 0x100
    let s1 := set_memory s addr after
    some (set_flags_for_arithmetic s1 before after (get_flag s1 .CY), 10)
  | .ConditionalJump c addr =>
    some (if is_condition s c then set_pc s addr else s, 10)
  | .ConditionalCall c addr =>
    if is_condition s c then some (set_pc (push s s.pc) addr, 17)
    else some (s, 11)
  | .ConditionalReturn c =>
    if is_condition s c then
      let (s1, addr) := pop s
      some (set_pc s1 addr, 11)
    else some (s, 5)
  | .MoveToMemoryImmediate data =>
    some (set_memory s (get_register_pair s .HL) data, 10)
  | .MoveRegister dst src => some (set_register s dst (get_register s src), 5)
  | .CompareImmediate data =>
    let before := get_register s .A
    let (after, carry) := overflowing_sub8 before data
    some (set_flags_for_arithmetic s before after carry, 7)
  | .CompareRegister r =>
    let before := get_register s .A
    let data := get_register s r
    let (after, carry) := overflowing_sub8 before data
    some (set_flags_for_arithmetic s before after carry, 4)
  | .CompareMemory =>
    let before := get_register s .A
    let data := get_memory s (get_register_pair s .HL)
    let (after, carry) := overflowing_sub8 before data
    some (set_flags_for_arithmetic s before after carry, 7)
  | .Push rp =>
    match rp with
    | .BC | .DE | .HL => some (push s (get_register_pair s rp), 11)
    | .SP => none
  | .Pop rp =>
    match rp with
    | .BC | .DE | .HL =>
      let (s1, data) := pop s
      some (set_register_pair s1 rp (data % 0x10000), 10)
    | .SP => none
  | .AddRegisterPairToHL rp =>
    let (value, carry) :=
      overflowing_add16 (get_register_pair s .HL) (get_register_pair s rp)
    let s1 := set_register_pair s .HL value
    some (set_flag s1 .CY carry, 10)
  | .ExchangeHLWithDE =>
    let hl := get_register_pair s .HL
    let s1 := set_register_pair s .HL (get_register_pair s .DE)
    some (set_register_pair s1 .DE hl, 4)
  | .ExchangeSPWithHL =>
    let h := get_register s .H
    let l := get_register s .L
    let sl := get_memory s s.sp
    let sh := get_memory s (s.sp + 1)
    let s1 := set_register s .L sl
    let s2 := set_register s1 .H sh
    let s3 := set_memory s2 s2.sp l
    some (set_memory s3 (s3.sp + 1) h, 18)
  | .Output port => some (set_bus_out s port (get_register s .A), 10)
  | .Input port =>
    let bus := get_bus_in s port
    some (set_register s .A bus, 10)
  | .MoveFromMemory r =>
    some (set_register s r (get_memory s (get_register_pair s .HL)), 7)
  | .PushProcessorStatusWord =>
    let s1 := push_data s (get_register s .A)
    some (push_data s1 (get_flags s1), 11)
  | .PopProcessorStatusWord =>
    let (s1, flags) := pop_data s
    let s2 := set_flags s1 flags
    let (s3, a) := pop_data s2
    some (set_register s3 .A a, 10)
  | .RotateRight =>
    let acc := get_register s .A
    let s1 := set_flag s .CY (get_bit acc 0)
    -- u8::rotate_right(1) of a byte value
    some (set_register s1 .A ((acc >>> 1) ||| ((acc &&& 0x1) <<< 7)), 4)
  | .RotateLeft =>
    let acc := get_register s .A
    let s1 := set_flag s .CY (get_bit acc 7)
    -- u8::rotate_left(1) of a byte value
    some (set_register s1 .A (((acc <<< 1) % 0x100) ||| (acc >>> 7)), 4)
  | .RotateRightThroughCarry =>
    let acc := get_register s .A
    let low := get_bit acc 0
    let acc1 := set_bit (acc >>> 1) 7 (get_flag s .CY)
    let s1 := set_flag s .CY low
    some (set_register s1 .A acc1, 4)
  | .OrMemory =>
    let before := get_register s .A
    let val := get_memory s (get_register_pair s .HL)
    let s1 := set_register s .A (before ||| val)
    let s2 := set_flags_for_arithmetic s1 before (get_register s1 .A) false
    some (set_flag s2 .AC false, 7)
  | .OrRegister r =>
    let before := get_register s .A
    let val := get_register s r
    let s1 := set_register s .A (before ||| val)
    let s2 := set_flags_for_arithmetic s1 before (get_register s1 .A) false
    some (set_flag s2 .AC false, 4)
  | .OrImmediate val =>
    let before := get_register s .A
    let s1 := set_register s .A (before ||| val)
    let s2 := set_flags_for_arithmetic s1 before (get_register s1 .A) false
    some (set_flag s2 .AC false, 7)
  | .AndImmediate data =>
    let before := get_register s .A
    let s1 := set_register s .A (before &&& data)
    let s2 := set_flags_for_arithmetic s1 before (get_register s1 .A) false
    some (set_flag s2 .AC false, 7)
  | .AndMemory =>
    let before := get_register s .A
    let data := get_memory s (get_register_pair s .HL)
    let s1 := set_register s .A (before &&& data)
    some (set_flags_for_arithmetic s1 before (get_register s1 .A) false, 7)
  | .AddImmediate addend => some (add s addend, 7)
  | .AddRegister r => some (add s (get_register s r), 4)
  | .AddRegisterWithCarry r =>
    -- The addend `get_register(r) + carry` is computed with u8 `+`, which
    -- wraps modulo 256 in release builds (and aborts in debug builds) when
    -- the register holds 0xFF and CY is set.
    some (add s ((get_register s r + (if get_flag s .CY then 1 else 0)) % 0x100), 4)
  | .AddMemory => some (add s (get_memory s (get_register_pair s .HL)), 7)
  | .SubtractRegister r =>
    let before := get_register s .A
    let data := get_register s r
    let (after, carry) := overflowing_sub8 before data
    let s1 := set_register s .A after
    some (set_flags_for_arithmetic s1 before (get_register s1 .A) carry, 4)
  | .SubtractImmediate data =>
    let before := get_register s .A
    let (after, carry) := overflowing_sub8 before data
    let s1 := set_register s .A after
    some (set_flags_for_arithmetic s1 before (get_register s1 .A) carry, 7)
  | .SubtractImmediateWithBorrow data =>
    let before := get_register s .A
    -- `data + carry` is a u8 add, wrapping as in AddRegisterWithCarry.
    let (after, carry) :=
      overflowing_sub8 before ((data + (if get_flag s .CY then 1 else 0)) % 0x100)
    let s1 := set_register s .A after
    some (set_flags_for_arithmetic s1 before (get_register s1 .A) carry, 7)
  | .LoadAccumulatorDirect addr =>
    some (set_register s .A (get_memory s addr), 13)
  | .StoreAccumulatorDirect addr =>
    some (set_memory s addr (get_register s .A), 13)
  | .ComplementAccumulator =>
    some (set_register s .A (get_register s .A ^^^ 0xFF), 4)
  | .XorRegister r =>
    let before := get_register s .A
    let s1 := set_register s .A (before ^^^ get_register s r)
    let s2 := set_flags_for_arithmetic s1 before (get_register s1 .A) false
    some (set_flag s2 .AC false, 4)
  | .AndRegister r =>
    let before := get_register s .A
    let s1 := set_register s .A (before &&& get_register s r)
    some (set_flags_for_arithmetic s1 before (get_register s1 .A) false, 4)
  | .DisableInterrupts => some ({ s with interruptable := false }, 4)
  | .EnableInterrupts => some ({ s with interruptable := true }, 4)
  | .Restart data => some (set_pc (push s s.pc) (8 * data), 11)
  | .SetCarry => some (set_flag s .CY true, 4)
  | .LoadHLDirect addr =>
    let s1 := set_register s .L (get_memory s addr)
    some (set_register s1 .H (get_memory s1 (addr + 1)), 16)
  | .StoreHLDirect addr =>
    let s1 := set_memory s addr (get_register s .L)
    some (set_memory s1 (addr + 1) (get_register s1 .H), 16)
  | .DecimalAdjustAccumulator =>
    let acc := get_register s .A
    let nibbleFix := decide (9 < acc &&& 0xF) || get_flag s .AC
    let a1 := if nibbleFix then (acc + 0x6) % 0x100 else acc
    let s1 := if nibbleFix then set_flag s .AC true else s
    let highFix := decide (0x99 < acc) || get_flag s1 .CY
    let a2 := if highFix then (a1 + 0x60) % 0x100 else a1
    let s2 := if highFix then set_flag s1 .CY true else s1
    some (set_register s2 .A a2, 4)
  | _ => none

/-- Cpu::interrupt: when the gate is open, close it and execute a restart to
`8 * data`; otherwise do nothing and take 0 cycles. -/
def interrupt (s : Cpu) (data : Nat) : Option (Cpu × Nat) :=
  if s.interruptable then
    execute { s with interruptable := false } (.Restart data)
  else
    some (s, 0)

/-! ### Bit-level helper lemmas -/

theorem get_bit_eq_testBit (v n : Nat) : get_bit v n = v.testBit n := by
  rw [get_bit, Nat.one_shiftLeft, Nat.and_two_pow]
  cases h : v.testBit n <;> simp [h, (Nat.two_pow_pos n).ne']

theorem testBit_set_bit (v n m : Nat) (b : Bool) (hm : m < 8) :
    (set_bit v n b).testBit m = if n = m then b else v.testBit m := by
  cases b with
  | true =>
    rw [set_bit, if_pos rfl, Nat.testBit_lor, Nat.one_shiftLeft,
      Nat.testBit_two_pow]
    by_cases h : n = m <;> simp [h]
  | false =>
    rw [set_bit, if_neg (by simp), Nat.testBit_land, Nat.testBit_xor,
      Nat.one_shiftLeft, Nat.testBit_two_pow]
    have h8 : (0xFF : Nat).testBit m = true := by
      have : (0xFF : Nat) = 2 ^ 8 - 1 := rfl
      rw [this, Nat.testBit_two_pow_sub_one]
      simpa using hm
    by_cases h : n = m <;> simp [h, h8]

theorem get_bit_set_bit (v n m : Nat) (b : Bool) (hm : m < 8) :
    get_bit (set_bit v n b) m = if n = m then b else get_bit v m := by
  rw [get_bit_eq_testBit, get_bit_eq_testBit, testBit_set_bit v n m b hm]

theorem Flag.pos_lt_eight (f : Flag) : f.pos < 8 := by
  cases f <;> decide

/-! ### Flag accessor lemmas -/

theorem get_flags_set_flag (s : Cpu) (f : Flag) (v : Bool) :
    get_flags (set_flag s f v) = set_bit (get_flags s) f.pos v := rfl

theorem get_flag_set_flag_self (s : Cpu) (f : Flag) (v : Bool) :
    get_flag (set_flag s f v) f = v := by
  rw [get_flag, get_flags_set_flag, get_bit_set_bit _ _ _ _ f.pos_lt_eight,
    if_pos rfl]

theorem get_flag_set_flag_ne (s : Cpu) (f g : Flag) (v : Bool)
    (h : f.pos ≠ g.pos) : get_flag (set_flag s f v) g = get_flag s g := by
  rw [get_flag, get_flags_set_flag, get_bit_set_bit _ _ _ _ g.pos_lt_eight,
    if_neg h, get_flag]

theorem get_flag_set_register (s : Cpu) (r : Register) (d : Nat) (f : Flag)
    (h : r ≠ .F) : get_flag (set_register s r d) f = get_flag s f := by
  cases r <;> first
    | exact absurd rfl h
    | rfl

theorem get_flag_set_memory (s : Cpu) (addr d : Nat) (f : Flag) :
    get_flag (set_memory s addr d) f = get_flag s f := rfl

theorem get_flag_set_flags_for_arithmetic_cy (s : Cpu) (b a : Nat) (c : Bool) :
    get_flag (set_flags_for_arithmetic s b a c) .CY = c := by
  rw [set_flags_for_arithmetic, get_flag_set_flag_ne _ _ _ _ (by decide),
    get_flag_set_flag_self]

theorem get_flag_set_flags_for_arithmetic_ac (s : Cpu) (b a : Nat) (c : Bool) :
    get_flag (set_flags_for_arithmetic s b a c) .AC = arith_ac b a := by
  rw [set_flags_for_arithmetic, get_flag_set_flag_self]

/-! ### 16-bit packing lemmas -/

theorem testBit_ff (i : Nat) : (0xFF : Nat).testBit i = decide (i < 8) := by
  have h : (0xFF : Nat) = 2 ^ 8 - 1 := rfl
  rw [h, Nat.testBit_two_pow_sub_one]

theorem testBit_byte_high (l i : Nat) (hl : l < 0x100) (hi : 8 ≤ i) :
    l.testBit i = false := by
  apply Nat.testBit_lt_two_pow
  calc l < 2 ^ 8 := hl
    _ ≤ 2 ^ i := Nat.pow_le_pow_right (by omega) hi

theorem pack_and_ff (h l : Nat) (hl : l < 0x100) :
    (h <<< 8 ||| l) &&& 0xFF = l := by
  apply Nat.eq_of_testBit_eq
  intro i
  rw [Nat.testBit_land, Nat.testBit_lor, Nat.testBit_shiftLeft, testBit_ff]
  by_cases hi : i < 8
  · simp [hi, show ¬(i ≥ 8) from by omega]
  · simp [hi, testBit_byte_high l i hl (by omega)]

theorem pack_and_ff00_shr (h l : Nat) (hh : h < 0x100) (hl : l < 0x100) :
    ((h <<< 8 ||| l) &&& 0xFF00) >>> 8 = h := by
  apply Nat.eq_of_testBit_eq
  intro i
  rw [Nat.testBit_shiftRight, Nat.testBit_land, Nat.testBit_lor,
    Nat.testBit_shiftLeft]
  have hmask : (0xFF00 : Nat) = 0xFF <<< 8 := by norm_num [Nat.shiftLeft_eq]
  rw [hmask, Nat.testBit_shiftLeft, testBit_ff]
  rw [show 8 + i - 8 = i from by omega]
  simp only [ge_iff_le, Nat.le_add_right, decide_True, Bool.true_and]
  by_cases hi : i < 8
  · simp [hi, testBit_byte_high l (8 + i) hl (by omega)]
  · simp [hi, testBit_byte_high l (8 + i) hl (by omega),
      testBit_byte_high h i hh (by omega)]

theorem pack_lt (h l : Nat) (hh : h < 0x100) (hl : l < 0x100) :
    h <<< 8 ||| l < 0x10000 := by
  have h1 : h <<< 8 < 0x10000 := by
    rw [Nat.shiftLeft_eq]
    have : (2 : Nat) ^ 8 = 256 := by norm_num
    rw [this]
    omega
  have h2 : l < 0x10000 := by omega
  have := Nat.or_lt_two_pow (show h <<< 8 < 2 ^ 16 by simpa using h1)
    (show l < 2 ^ 16 by simpa using h2)
  simpa using this

/-! ### Claim theorems -/

/-- C7: executing `Push`/`Pop` with the SP pair, or an indirect accumulator
load/store through the HL or SP pair, aborts (modelled as `none`) in every
machine state; the operand error is never coerced into other behaviour. -/
theorem invalid_pair_operands_abort (s : Cpu) :
    execute s (.Push .SP) = none ∧
    execute s (.Pop .SP) = none ∧
    execute s (.LoadAccumulatorIndirect .HL) = none ∧
    execute s (.LoadAccumulatorIndirect .SP) = none ∧
    execute s (.StoreAccumulatorIndirect .HL) = none ∧
    execute s (.StoreAccumulatorIndirect .SP) = none :=
  ⟨rfl, rfl, rfl, rfl, rfl, rfl⟩

/-- C8: from a fresh machine (shift register 0, offset 0), writing 0x01 and
then 0x03 to output port 4 and reading input port 3 loads 0x03 into the
accumulator. -/
theorem shift_register_two_loads :
    ((execute (Cpu.new []) (.MoveImmediate .A 0x01)).bind fun p1 =>
      (execute p1.1 (.Output 4)).bind fun p2 =>
        (execute p2.1 (.MoveImmediate .A 0x03)).bind fun p3 =>
          (execute p3.1 (.Output 4)).bind fun p4 =>
            (execute p4.1 (.Input 3)).map fun p5 =>
              get_register p5.1 .A) = some 0x03 := by
  decide

/-- C1: the auxiliary-carry clause of the claim fails on the code.  For
before = 0x0F, after = 0x10 (a genuine half-carry out of bit 3 into bit 4,
witnessed by the `get_bit` conjuncts), `set_flags_for_arithmetic` leaves AC
clear; and for before = after = 0x01, where no half-carry occurred, it sets
AC.  The parenthesisation in the source shifts the masks instead of the
masked values, so the routine tests bit 0 of both bytes. -/
theorem aux_carry_is_not_half_carry :
    get_flag (set_flags_for_arithmetic (Cpu.new []) 0x0F 0x10 false) .AC = false ∧
    get_bit 0x0F 3 = true ∧
    get_bit 0x10 4 = true ∧
    get_flag (set_flags_for_arithmetic (Cpu.new []) 0x01 0x01 false) .AC = true ∧
    get_bit 0x01 3 = false ∧
    get_bit 0x01 4 = false := by
  refine ⟨by decide, by decide, by decide, by decide, by decide, by decide⟩

/-- C3: add-register-with-carry loses the carry-out when the source register
holds 0xFF and the incoming carry is set: with A = 0x10, B = 0xFF, CY = 1 the
wrapped u8 addend is 0, so the accumulator still receives
(0x10 + 0xFF + 1) mod 256 = 0x10 but the Carry flag ends false even though
0x10 + 0xFF + 1 > 0xFF (debug builds abort on the same input). -/
theorem adc_carry_lost_on_wrapped_addend :
    (execute (set_flag (set_register (set_register (Cpu.new []) .A 0x10)
        .B 0xFF) .CY true) (.AddRegisterWithCarry .B)).map
      (fun p => (get_register p.1 .A, get_flag p.1 .CY)) =
        some ((0x10 + 0xFF + 1) % 0x100, false) ∧
    0xFF < 0x10 + 0xFF + 1 := by
  refine ⟨by decide, by decide⟩

/-- C2 counterexample: the claim fails on the code in two ways.  With A = 0x01,
`AndImmediate 0x01` forces AC to false although the arithmetic before/after
rule (`arith_ac 0x01 0x01`) yields true — so the AND immediate form does not
leave AC "computed by the same rule".  And `XorMemory` (likewise
`XorImmediate`) is not an implemented arm at all: execution aborts. -/
theorem logical_ops_claim_fails :
    (execute (set_register (Cpu.new []) .A 0x01) (.AndImmediate 0x01)).map
        (fun p => get_flag p.1 .AC) = some false ∧
    arith_ac 0x01 0x01 = true ∧
    execute (Cpu.new []) .XorMemory = none := by
  refine ⟨by decide, by decide, rfl⟩

set_option maxHeartbeats 1000000 in
/-- C2 (amended): every implemented AND/OR/XOR form (AND register, memory and
immediate; OR register, memory and immediate; XOR register) clears the Carry
flag; the AND register and AND memory forms leave Auxiliary-Carry computed by
the arithmetic before/after rule, while AND immediate, the OR forms and XOR
register force Auxiliary-Carry to false; the XOR memory and XOR immediate
forms are unimplemented and abort. -/
theorem logical_ops_flags (s : Cpu) (r : Register) (d : Nat) :
    ((execute s (.AndRegister r)).map (fun p => get_flag p.1 .CY) = some false) ∧
    ((execute s .AndMemory).map (fun p => get_flag p.1 .CY) = some false) ∧
    ((execute s (.AndImmediate d)).map (fun p => get_flag p.1 .CY) = some false) ∧
    ((execute s (.OrRegister r)).map (fun p => get_flag p.1 .CY) = some false) ∧
    ((execute s .OrMemory).map (fun p => get_flag p.1 .CY) = some false) ∧
    ((execute s (.OrImmediate d)).map (fun p => get_flag p.1 .CY) = some false) ∧
    ((execute s (.XorRegister r)).map (fun p => get_flag p.1 .CY) = some false) ∧
    ((execute s (.AndRegister r)).map (fun p => get_flag p.1 .AC) =
      some (arith_ac (get_register s .A)
        (get_register s .A &&& get_register s r))) ∧
    ((execute s .AndMemory).map (fun p => get_flag p.1 .AC) =
      some (arith_ac (get_register s .A)
        (get_register s .A &&& get_memory s (get_register_pair s .HL)))) ∧
    ((execute s (.AndImmediate d)).map (fun p => get_flag p.1 .AC) = some false) ∧
    ((execute s (.OrRegister r)).map (fun p => get_flag p.1 .AC) = some false) ∧
    ((execute s .OrMemory).map (fun p => get_flag p.1 .AC) = some false) ∧
    ((execute s (.OrImmediate d)).map (fun p => get_flag p.1 .AC) = some false) ∧
    ((execute s (.XorRegister r)).map (fun p => get_flag p.1 .AC) = some false) ∧
    execute s .XorMemory = none ∧
    execute s (.XorImmediate d) = none := by
  refine ⟨?_, ?_, ?_, ?_, ?_, ?_, ?_, ?_, ?_, ?_, ?_, ?_, ?_, ?_, rfl, rfl⟩
  all_goals
    simp only [execute, Option.map_some, Option.map]
  · rw [get_flag_set_flags_for_arithmetic_cy]
  · rw [get_flag_set_flags_for_arithmetic_cy]
  · rw [get_flag_set_flag_ne _ _ _ _ (by decide),
      get_flag_set_flags_for_arithmetic_cy]
  · rw [get_flag_set_flag_ne _ _ _ _ (by decide),
      get_flag_set_flags_for_arithmetic_cy]
  · rw [get_flag_set_flag_ne _ _ _ _ (by decide),
      get_flag_set_flags_for_arithmetic_cy]
  · rw [get_flag_set_flag_ne _ _ _ _ (by decide),
      get_flag_set_flags_for_arithmetic_cy]
  · rw [get_flag_set_flag_ne _ _ _ _ (by decide),
      get_flag_set_flags_for_arithmetic_cy]
  · rw [get_flag_set_flags_for_arithmetic_ac]; exact rfl
  · rw [get_flag_set_flags_for_arithmetic_ac]; exact rfl
  · rw [get_flag_set_flag_self]
  · rw [get_flag_set_flag_self]
  · rw [get_flag_set_flag_self]
  · rw [get_flag_set_flag_self]
  · rw [get_flag_set_flag_self]

/-- C10: the 8-bit increment/decrement instructions recompute the arithmetic
flags but pass the current Carry flag through unchanged.  The register operand
ranges over the registers the decoder actually emits for INR/DCR (B, C, D, E,
H, L, A — the operand pattern 0b110 encodes the memory forms, so the flags
register F never appears as an operand). -/
theorem inr_dcr_preserve_carry (s : Cpu) (r : Register) (h : r ≠ .F) :
    ((execute s (.IncrementRegister r)).map (fun p => get_flag p.1 .CY) =
      some (get_flag s .CY)) ∧
    ((execute s (.DecrementRegister r)).map (fun p => get_flag p.1 .CY) =
      some (get_flag s .CY)) ∧
    ((execute s .IncrementMemory).map (fun p => get_flag p.1 .CY) =
      some (get_flag s .CY)) ∧
    ((execute s .DecrementMemory).map (fun p => get_flag p.1 .CY) =
      some (get_flag s .CY)) := by
  refine ⟨?_, ?_, ?_, ?_⟩
  all_goals
    simp only [execute, overflowing_sub8, Option.map]
  · rw [get_flag_set_flags_for_arithmetic_cy, get_flag_set_register _ _ _ _ h]
  · rw [get_flag_set_flags_for_arithmetic_cy, get_flag_set_register _ _ _ _ h]
  · rw [get_flag_set_flags_for_arithmetic_cy, get_flag_set_memory]
  · rw [get_flag_set_flags_for_arithmetic_cy, get_flag_set_memory]

/-- C10 witness: the theorem applied to a fresh machine and register B. -/
theorem inr_dcr_preserve_carry_witness :
    Register.B ≠ Register.F ∧
    (((execute (Cpu.new []) (.IncrementRegister .B)).map
        (fun p => get_flag p.1 .CY) = some (get_flag (Cpu.new []) .CY)) ∧
      ((execute (Cpu.new []) (.DecrementRegister .B)).map
        (fun p => get_flag p.1 .CY) = some (get_flag (Cpu.new []) .CY)) ∧
      ((execute (Cpu.new []) .IncrementMemory).map
        (fun p => get_flag p.1 .CY) = some (get_flag (Cpu.new []) .CY)) ∧
      ((execute (Cpu.new []) .DecrementMemory).map
        (fun p => get_flag p.1 .CY) = some (get_flag (Cpu.new []) .CY))) :=
  ⟨by decide, inr_dcr_preserve_carry (Cpu.new []) .B (by decide)⟩

/-- C4 counterexample: conditional jump costs 10 cycles whether or not the
condition holds, so the not-taken cycle count is not strictly lower than the
taken one (here condition Zero, false on a fresh machine and true after
setting the Z flag). -/
theorem conditional_jump_cycles_equal :
    is_condition (Cpu.new []) .Zero = false ∧
    (execute (Cpu.new []) (.ConditionalJump .Zero 0x10)).map Prod.snd =
      some 10 ∧
    is_condition (set_flag (Cpu.new []) .Z true) .Zero = true ∧
    (execute (set_flag (Cpu.new []) .Z true)
        (.ConditionalJump .Zero 0x10)).map Prod.snd = some 10 := by
  refine ⟨by decide, by decide, by decide, by decide⟩

/-- C4 (amended): for each of the 8 condition codes, a true condition
redirects control flow (jump and call set the program counter, call pushes
the return address, return pops it) while a false condition leaves the state
untouched; conditional call and return are cheaper when not taken (11 < 17
and 5 < 11 cycles), while conditional jump costs 10 cycles either way. -/
theorem conditional_flow_and_cycles (s : Cpu) (c : Condition) (addr : Nat) :
    (is_condition s c = true →
      execute s (.ConditionalJump c addr) = some (set_pc s addr, 10) ∧
      execute s (.ConditionalCall c addr) = some (set_pc (push s s.pc) addr, 17) ∧
      execute s (.ConditionalReturn c) = some (set_pc (pop s).1 (pop s).2, 11)) ∧
    (is_condition s c = false →
      execute s (.ConditionalJump c addr) = some (s, 10) ∧
      execute s (.ConditionalCall c addr) = some (s, 11) ∧
      execute s (.ConditionalReturn c) = some (s, 5)) ∧
    11 < 17 ∧ 5 < 11 := by
  refine ⟨fun h => ?_, fun h => ?_, by omega, by omega⟩
  · refine ⟨?_, ?_, ?_⟩ <;> simp [execute, h]
  · refine ⟨?_, ?_, ?_⟩ <;> simp [execute, h]

/-- C4 witness: the theorem applied with condition Zero, once on a machine
with the Z flag set (condition true) and once on a fresh machine (condition
false). -/
theorem conditional_flow_and_cycles_witness :
    (is_condition (set_flag (Cpu.new []) .Z true) .Zero = true ∧
      (execute (set_flag (Cpu.new []) .Z true) (.ConditionalJump .Zero 0x10) =
        some (set_pc (set_flag (Cpu.new []) .Z true) 0x10, 10) ∧
      execute (set_flag (Cpu.new []) .Z true) (.ConditionalCall .Zero 0x10) =
        some (set_pc (push (set_flag (Cpu.new []) .Z true)
          (set_flag (Cpu.new []) .Z true).pc) 0x10, 17) ∧
      execute (set_flag (Cpu.new []) .Z true) (.ConditionalReturn .Zero) =
        some (set_pc (pop (set_flag (Cpu.new []) .Z true)).1
          (pop (set_flag (Cpu.new []) .Z true)).2, 11))) ∧
    (is_condition (Cpu.new []) .Zero = false ∧
      (execute (Cpu.new []) (.ConditionalJump .Zero 0x10) =
        some (Cpu.new [], 10) ∧
      execute (Cpu.new []) (.ConditionalCall .Zero 0x10) =
        some (Cpu.new [], 11) ∧
      execute (Cpu.new []) (.ConditionalReturn .Zero) =
        some (Cpu.new [], 5))) :=
  ⟨⟨by decide,
    (conditional_flow_and_cycles (set_flag (Cpu.new []) .Z true) .Zero 0x10).1
      (by decide)⟩,
   ⟨by decide,
    (conditional_flow_and_cycles (Cpu.new []) .Zero 0x10).2.1 (by decide)⟩⟩

/-- The state produced by servicing an interrupt through an open gate:
the gate is closed, the pre-interrupt program counter is pushed, and control
transfers to the restart address (this names the image of
`execute { s with interruptable := false } (.Restart v)`). -/
def restart_state (s : Cpu) (v : Nat) : Cpu :=
  set_pc (push { s with interruptable := false } s.pc) (8 * v)

/-- C5: when the interrupt gate is closed, `interrupt` returns 0 cycles and
leaves the state unchanged; when open, it returns the restart's 11 cycles on
a state whose program counter is v×8, whose gate is closed, and whose stack
holds the two bytes of the pre-interrupt program counter below the old stack
pointer, all other components unchanged. -/
theorem interrupt_gating (s : Cpu) (v : Nat) :
    (s.interruptable = false → interrupt s v = some (s, 0)) ∧
    (s.interruptable = true →
      interrupt s v = some (restart_state s v, 11) ∧
      (restart_state s v).pc = 8 * v ∧
      (restart_state s v).interruptable = false ∧
      (restart_state s v).sp = s.sp - 2 ∧
      get_memory (restart_state s v) (s.sp - 2) = s.pc &&& 0x00FF ∧
      (2 ≤ s.sp →
        get_memory (restart_state s v) (s.sp - 1) = (s.pc &&& 0xFF00) >>> 8) ∧
      (restart_state s v).registers = s.registers ∧
      (restart_state s v).bus_in = s.bus_in ∧
      (restart_state s v).bus_out = s.bus_out ∧
      (restart_state s v).shift = s.shift ∧
      (restart_state s v).offset = s.offset) := by
  constructor
  · intro h
    rw [interrupt, h]
    rfl
  · intro h
    refine ⟨?_, rfl, rfl, ?_, ?_, ?_, rfl, rfl, rfl, rfl, rfl⟩
    · rw [interrupt, h]
      rfl
    · show s.sp - 1 - 1 = s.sp - 2
      omega
    · show (if s.sp - 2 = s.sp - 1 - 1 then s.pc &&& 0x00FF
        else if s.sp - 2 = s.sp - 1 then (s.pc &&& 0xFF00) >>> 8
        else s.memory (s.sp - 2)) = s.pc &&& 0x00FF
      rw [if_pos (by omega)]
    · intro hsp
      show (if s.sp - 1 = s.sp - 1 - 1 then s.pc &&& 0x00FF
        else if s.sp - 1 = s.sp - 1 then (s.pc &&& 0xFF00) >>> 8
        else s.memory (s.sp - 1)) = (s.pc &&& 0xFF00) >>> 8
      rw [if_neg (by omega), if_pos rfl]

/-- A sample machine with an open interrupt gate for the C5 witness. -/
def sampleInt : Cpu :=
  { Cpu.new [] with
    interruptable := true
    sp := 0x2400
    pc := 0x1234 }

/-- C5 witness: gate closed on a fresh machine (0 cycles, unchanged state);
gate open on `sampleInt` (restart to address 8, both stacked bytes of the old
program counter in place). -/
theorem interrupt_gating_witness :
    ((Cpu.new []).interruptable = false ∧
      interrupt (Cpu.new []) 1 = some (Cpu.new [], 0)) ∧
    (sampleInt.interruptable = true ∧
      interrupt sampleInt 1 = some (restart_state sampleInt 1, 11) ∧
      (restart_state sampleInt 1).pc = 8 ∧
      (restart_state sampleInt 1).interruptable = false ∧
      (restart_state sampleInt 1).sp = 0x23FE ∧
      get_memory (restart_state sampleInt 1) 0x23FE = 0x34 ∧
      2 ≤ sampleInt.sp ∧
      get_memory (restart_state sampleInt 1) 0x23FF = 0x12) :=
  ⟨⟨rfl, (interrupt_gating (Cpu.new []) 1).1 rfl⟩,
   ⟨rfl,
    ((interrupt_gating sampleInt 1).2 rfl).1,
    ((interrupt_gating sampleInt 1).2 rfl).2.1,
    ((interrupt_gating sampleInt 1).2 rfl).2.2.1,
    ((interrupt_gating sampleInt 1).2 rfl).2.2.2.1,
    ((interrupt_gating sampleInt 1).2 rfl).2.2.2.2.1,
    by decide,
    ((interrupt_gating sampleInt 1).2 rfl).2.2.2.2.2.1 (by decide)⟩⟩

/-! ### Push/pop round-trip infrastructure -/

theorem execute_push (s : Cpu) (rp : RegisterPair) (hrp : rp ≠ .SP) :
    execute s (.Push rp) = some (push s (get_register_pair s rp), 11) := by
  cases rp <;> first
    | exact absurd rfl hrp
    | rfl

theorem execute_pop (s : Cpu) (rp : RegisterPair) (hrp : rp ≠ .SP) :
    execute s (.Pop rp) =
      some (set_register_pair { s with sp := s.sp + 2 } rp (peek s % 0x10000),
        10) := by
  cases rp <;> first
    | exact absurd rfl hrp
    | rfl

theorem get_register_pair_eq (s : Cpu) (rp : RegisterPair) (hrp : rp ≠ .SP) :
    get_register_pair s rp =
      s.registers (rp.idx * 2) <<< 8 ||| s.registers (rp.idx * 2 + 1) := by
  cases rp <;> first
    | exact absurd rfl hrp
    | rfl

theorem get_register_pair_set_register_pair (s : Cpu) (rp : RegisterPair)
    (hrp : rp ≠ .SP) (d : Nat) :
    get_register_pair (set_register_pair s rp d) rp =
      ((d &&& 0xFF00) >>> 8) <<< 8 ||| (d &&& 0x00FF) := by
  cases rp <;> first
    | exact absurd rfl hrp
    | rfl

theorem sp_set_register_pair (s : Cpu) (rp : RegisterPair) (hrp : rp ≠ .SP)
    (d : Nat) : (set_register_pair s rp d).sp = s.sp := by
  cases rp <;> first
    | exact absurd rfl hrp
    | rfl

theorem sp_push (s : Cpu) (d : Nat) : (push s d).sp = s.sp - 1 - 1 := rfl

theorem peek_push (s : Cpu) (d : Nat) (hsp : 2 ≤ s.sp) :
    peek (push s d) = (d &&& 0x00FF) ||| ((d &&& 0xFF00) >>> 8) <<< 8 := by
  show (if s.sp - 1 - 1 = s.sp - 1 - 1 then d &&& 0x00FF
      else if s.sp - 1 - 1 = s.sp - 1 then (d &&& 0xFF00) >>> 8
      else s.memory (s.sp - 1 - 1)) |||
    (if s.sp - 1 - 1 + 1 = s.sp - 1 - 1 then d &&& 0x00FF
      else if s.sp - 1 - 1 + 1 = s.sp - 1 then (d &&& 0xFF00) >>> 8
      else s.memory (s.sp - 1 - 1 + 1)) <<< 8 = _
  rw [if_pos rfl, if_neg (by omega), if_pos (by omega)]

theorem pack_roundtrip (h l : Nat) (hh : h < 0x100) (hl : l < 0x100) :
    (((h <<< 8 ||| l) &&& 0x00FF) |||
      (((h <<< 8 ||| l) &&& 0xFF00) >>> 8) <<< 8) % 0x10000 =
      h <<< 8 ||| l := by
  rw [pack_and_ff _ _ hl, pack_and_ff00_shr _ _ hh hl, Nat.lor_comm]
  exact Nat.mod_eq_of_lt (pack_lt _ _ hh hl)

/-- C6: pushing one of the pairs BC, DE, HL and popping it back restores the
pair's 16-bit value and the stack pointer (the hypotheses express that the
pre-state permits a push: two stack bytes below SP, and byte-valued register
cells as guaranteed by the `u8` register file). -/
theorem push_pop_roundtrip (s : Cpu) (rp : RegisterPair) (hrp : rp ≠ .SP)
    (hsp : 2 ≤ s.sp)
    (hh : s.registers (rp.idx * 2) < 0x100)
    (hl : s.registers (rp.idx * 2 + 1) < 0x100) :
    ((execute s (.Push rp)).map Prod.snd = some 11) ∧
    (((execute s (.Push rp)).bind fun t => execute t.1 (.Pop rp)).map
        (fun u => (get_register_pair u.1 rp, u.1.sp, u.2)) =
      some (get_register_pair s rp, s.sp, 10)) := by
  constructor
  · rw [execute_push s rp hrp]
    rfl
  · rw [execute_push s rp hrp]
    show (execute (push s (get_register_pair s rp)) (.Pop rp)).map _ = _
    rw [execute_pop _ rp hrp]
    show some (get_register_pair (set_register_pair _ rp _) rp,
      (set_register_pair _ rp _).sp, 10) = _
    rw [get_register_pair_set_register_pair _ rp hrp,
      sp_set_register_pair _ rp hrp, peek_push s _ hsp,
      get_register_pair_eq s rp hrp,
      pack_roundtrip _ _ hh hl, pack_and_ff _ _ hl,
      pack_and_ff00_shr _ _ hh hl]
    show some (_, (push s _).sp + 2, 10) = _
    rw [sp_push]
    rw [show s.sp - 1 - 1 + 2 = s.sp from by omega]

/-- A sample machine for the round-trip witness: SP = 0x2400, BC = 0x1234. -/
def sampleBC : Cpu :=
  { Cpu.new [] with
    sp := 0x2400
    registers := fun i => if i = 0 then 0x12 else if i = 1 then 0x34 else 0 }

/-- C6 witness: the theorem applied to `sampleBC` and the BC pair. -/
theorem push_pop_roundtrip_witness :
    RegisterPair.BC ≠ RegisterPair.SP ∧
    2 ≤ sampleBC.sp ∧
    sampleBC.registers (RegisterPair.idx .BC * 2) < 0x100 ∧
    sampleBC.registers (RegisterPair.idx .BC * 2 + 1) < 0x100 ∧
    (((execute sampleBC (.Push .BC)).map Prod.snd = some 11) ∧
      (((execute sampleBC (.Push .BC)).bind fun t =>
          execute t.1 (.Pop .BC)).map
          (fun u => (get_register_pair u.1 .BC, u.1.sp, u.2)) =
        some (get_register_pair sampleBC .BC, sampleBC.sp, 10))) :=
  ⟨by decide, by decide, by decide, by decide,
    push_pop_roundtrip sampleBC .BC (by decide) (by decide) (by decide)
      (by decide)⟩

/-! ### Construction (C9) -/

/-- C9 counterexample: the port arrays do not start zeroed — on a freshly
constructed machine, input port 0 holds 0b0000_1110. -/
theorem cpu_new_ports_not_zeroed :
    (Cpu.new []).bus_in 0 = 0b00001110 ∧ (0b00001110 : Nat) ≠ 0 :=
  ⟨rfl, by decide⟩

/-- C9 (amended): constructing a Cpu from a program image no larger than the
ROM region (the low 0x2000 bytes of the 0x4000-byte address space, per the
memory map) copies the program bytes to the low addresses and zeroes the rest
of memory, the registers and flags, the stack pointer, the shift register and
offset, and the output ports, and closes the interrupt gate; the input-port
latches are the exception: port 0 starts at 0b0000_1110 and port 1 at
0b0000_1000, the remaining six input ports at 0. -/
theorem cpu_new_initial_state (program : List Nat)
    (_hlen : program.length ≤ 0x2000) :
    (∀ i, i < program.length →
      (Cpu.new program).memory i = program.getD i 0) ∧
    (∀ i, program.length ≤ i → (Cpu.new program).memory i = 0) ∧
    (∀ j, (Cpu.new program).registers j = 0) ∧
    (Cpu.new program).pc = 0 ∧
    (Cpu.new program).sp = 0 ∧
    (Cpu.new program).bus_in 0 = 0b00001110 ∧
    (Cpu.new program).bus_in 1 = 0b00001000 ∧
    (∀ p, 2 ≤ p → (Cpu.new program).bus_in p = 0) ∧
    (∀ p, (Cpu.new program).bus_out p = 0) ∧
    (Cpu.new program).shift = 0 ∧
    (Cpu.new program).offset = 0 ∧
    (Cpu.new program).interruptable = false := by
  refine ⟨fun i _ => rfl, fun i hi => ?_, fun j => rfl, rfl, rfl, rfl, rfl,
    fun p hp => ?_, fun p => rfl, rfl, rfl, rfl⟩
  · show program.getD i 0 = 0
    exact List.getD_eq_default _ _ hi
  · show (if p = 0 then 0b00001110 else if p = 1 then 0b00001000 else 0) = 0
    rw [if_neg (by omega), if_neg (by omega)]

/-- C9 witness: the amended theorem applied to the two-byte program
[0x12, 0x34]. -/
theorem cpu_new_initial_state_witness :
    ([0x12, 0x34] : List Nat).length ≤ 0x2000 ∧
    (Cpu.new [0x12, 0x34]).memory 0 = 0x12 ∧
    (Cpu.new [0x12, 0x34]).memory 5 = 0 ∧
    (Cpu.new [0x12, 0x34]).registers 6 = 0 ∧
    (Cpu.new [0x12, 0x34]).interruptable = false :=
  ⟨by decide,
   (cpu_new_initial_state [0x12, 0x34] (by decide)).1 0 (by decide),
   (cpu_new_initial_state [0x12, 0x34] (by decide)).2.1 5 (by decide),
   (cpu_new_initial_state [0x12, 0x34] (by decide)).2.2.1 6,
   (cpu_new_initial_state [0x12, 0x34] (by decide)).2.2.2.2.2.2.2.2.2.2.2⟩

end Inv8080
